import Mathlib

/-!
# Verification of the flow execution runtime

A shallow embedding of the conversational flow runtime:

* `flow_stack.py` — the serializable dialogue stack (`FlowStack`,
  `FlowStackFrame`, `StackFrameType`), translated directly from the source.
* `flow_executor.py` — the step-interpretation loop (`select_next_action`),
  the transition selector (`select_next_step_id`), the step interpreter
  (`run_step`), the pattern triggers and the scoped slot reset, translated
  directly from the source.

Data types the executor operates on (flows, steps, links, tracker, the
dialogue-understanding stack) are owned by external modules; they are
modelled from the specification's data model where noted.  Template
rendering and predicate evaluation are external collaborators; they are
modelled as explicit function parameters (`Collaborators`), fallible where
the underlying libraries can raise.
-/

namespace FlowRuntime

/-- An opaque runtime value, standing in for the Python `Any` used for slot
values, context entries and `SetSlots` payloads.  Modelled from the spec:
values are opaque to the runtime. -/
inductive Val where
  | vNone : Val
  | vBool : Bool → Val
  | vStr : String → Val
  | vInt : Int → Val
  deriving DecidableEq, Repr

/-- A key-value mapping with opaque values (a Python `Dict[str, Any]`). -/
abbrev Ctx := List (String × Val)

/-- Modelled from the spec: the designated start step id of a flow
(`START_STEP` from the external flow module; the runtime treats it as an
opaque constant). -/
def START_STEP : String := "START"

/-- Modelled from the spec: the catalog-wide terminal step id (`END_STEP`
from the external flow module). -/
def END_STEP : String := "END"

/-- Modelled from the spec: `ContinueFlowStep.continue_step_for_id` of the
external flow module prefixes a step id to form the id of its
continuation marker. -/
def continue_step_for_id (id : String) : String := "continue_" ++ id

/-- The default action predicted when the stack holds no flow frame
(`ACTION_LISTEN_NAME` from the external constants module). -/
def ACTION_LISTEN_NAME : String := "action_listen"

/-- The action predicted by a generate-response step
(`ACTION_SEND_TEXT_NAME` from the external constants module). -/
def ACTION_SEND_TEXT_NAME : String := "action_send_text"

end FlowRuntime

namespace FlowStackSrc

open FlowRuntime

/-- Enum `StackFrameType` from `flow_stack.py`: the kind of a stack frame. -/
inductive StackFrameType where
  | interrupt : StackFrameType
  | remark : StackFrameType
  | link : StackFrameType
  | correction : StackFrameType
  | regular : StackFrameType
  | docsearch : StackFrameType
  | intentless : StackFrameType
  deriving DecidableEq, Repr

/-- The string value of a `StackFrameType` (the Python enum's `.value`). -/
def StackFrameType.value : StackFrameType → String
  | .interrupt => "interrupt"
  | .remark => "remark"
  | .link => "link"
  | .correction => "correction"
  | .regular => "regular"
  | .docsearch => "docsearch"
  | .intentless => "intentless"

/-- Source `StackFrameType.from_str`: parse a frame type from an optional string.
`none` yields the regular type; an unrecognized string raises
`NotImplementedError`, modelled as `Option.none`. -/
def StackFrameType.from_str (typ : Option String) : Option StackFrameType :=
  match typ with
  | Option.none => some StackFrameType.regular
  | some t =>
    if t = StackFrameType.interrupt.value then some StackFrameType.interrupt
    else if t = StackFrameType.link.value then some StackFrameType.link
    else if t = StackFrameType.regular.value then some StackFrameType.regular
    else if t = StackFrameType.correction.value then some StackFrameType.correction
    else if t = StackFrameType.docsearch.value then some StackFrameType.docsearch
    else if t = StackFrameType.intentless.value then some StackFrameType.intentless
    else if t = StackFrameType.remark.value then some StackFrameType.remark
    else Option.none

/-- The serialized record of one frame: the dictionary produced by
`FlowStackFrame.as_dict` and consumed by `FlowStackFrame.from_dict`.
`frame_type` is read with `data.get`, hence optional. -/
structure FrameRecord where
  flow_id : String
  step_id : String
  frame_type : Option String
  context : Option Ctx
  deriving DecidableEq, Repr

/-- Dataclass `FlowStackFrame` from `flow_stack.py`: one activation record. -/
structure FlowStackFrame where
  flow_id : String
  step_id : String := FlowRuntime.START_STEP
  frame_type : StackFrameType := StackFrameType.regular
  context : Option Ctx := Option.none
  deriving DecidableEq, Repr

/-- Source `FlowStackFrame.from_dict`: rebuild a frame from its record.  An
unrecognized frame type propagates the `from_str` failure. -/
def FlowStackFrame.from_dict (data : FrameRecord) : Option FlowStackFrame :=
  (StackFrameType.from_str data.frame_type).map fun ft =>
    { flow_id := data.flow_id
      step_id := data.step_id
      frame_type := ft
      context := data.context }

/-- Source `FlowStackFrame.as_dict`: serialize a frame to its record. -/
def FlowStackFrame.as_dict (f : FlowStackFrame) : FrameRecord :=
  { flow_id := f.flow_id
    step_id := f.step_id
    frame_type := some f.frame_type.value
    context := f.context }

/-- Source `FlowStackFrame.with_updated_id`: copy of the frame with the given step
id (the source passes only `flow_id`, `step_id` and `frame_type` to the
constructor, so `context` takes its default). -/
def FlowStackFrame.with_updated_id (f : FlowStackFrame) (step_id : String) :
    FlowStackFrame :=
  { flow_id := f.flow_id, step_id := step_id, frame_type := f.frame_type }

/-- Dataclass `FlowStack` from `flow_stack.py`: the current flow stack. -/
structure FlowStack where
  frames : List FlowStackFrame
  deriving DecidableEq, Repr

/-- Source `FlowStack.from_dict`: rebuild a stack from a list of frame records;
a failing frame fails the whole reconstruction. -/
def FlowStack.from_dict (data : List FrameRecord) : Option FlowStack :=
  (data.mapM FlowStackFrame.from_dict).map FlowStack.mk

/-- Source `FlowStack.as_dict`: serialize the stack to a list of frame records. -/
def FlowStack.as_dict (s : FlowStack) : List FrameRecord :=
  s.frames.map FlowStackFrame.as_dict

/-- Source `FlowStack.is_empty`. -/
def FlowStack.is_empty (s : FlowStack) : Bool := s.frames.length = 0

end FlowStackSrc

namespace FlowExec

open FlowRuntime
open FlowStackSrc (StackFrameType)

/-- Modelled from the spec: a slot of the conversation state store
(value, initial value, and whether it has been set).  The tracker is an
external collaborator; the executor reads `initial_value` and
`has_been_set` and applies `SlotSet` events. -/
structure Slot where
  value : Val
  initial_value : Val
  has_been_set : Bool
  deriving DecidableEq, Repr

/-- The only event kind the executor produces: `SlotSet(key, value)`. -/
inductive Event where
  | slotSet : String → Val → Event
  deriving DecidableEq, Repr

/-- Modelled from the spec: the conversation state store
(`DialogueStateTracker`), reduced to its slot mapping and event log. -/
structure Tracker where
  slots : List (String × Slot)
  events : List Event
  deriving DecidableEq, Repr

/-- Source `tracker.current_slot_values()`: the mapping from slot name to
current value. -/
def Tracker.current_slot_values (t : Tracker) : Ctx :=
  t.slots.map fun kv => (kv.1, kv.2.value)

/-- Modelled from the spec: applying one event to the working conversation
state.  A `SlotSet` updates the named slot (if present) and is appended to
the event log. -/
def Tracker.applyEvent (t : Tracker) (e : Event) : Tracker :=
  match e with
  | .slotSet k v =>
    { slots := t.slots.map fun kv =>
        if kv.1 = k then (kv.1, { kv.2 with value := v, has_been_set := true })
        else kv
      events := t.events ++ [e] }

/-- Source `tracker.update_with_events`: apply a list of events in order. -/
def Tracker.update_with_events (t : Tracker) (evs : List Event) : Tracker :=
  evs.foldl Tracker.applyEvent t

/-- Modelled from the spec: a slot rejection rule carried by a collect
step (opaque to the executor, stored on the pattern frame it pushes). -/
structure SlotRejection where
  if_condition : String
  utter : String
  deriving DecidableEq, Repr

/-- Modelled from the spec: one outgoing link of a step — static
(unconditional), conditional (`IfFlowLink`, predicate text may be empty,
matching the source's falsiness check) or else (`ElseFlowLink`). -/
inductive FlowLink where
  | staticLink : String → FlowLink
  | ifLink : (condition : String) → (target : String) → FlowLink
  | elseLink : String → FlowLink
  deriving DecidableEq, Repr

/-- The target of a link. -/
def FlowLink.target : FlowLink → String
  | .staticLink t => t
  | .ifLink _ t => t
  | .elseLink t => t

/-- Modelled from the spec: the payload distinguishing the step kinds the
interpreter dispatches on.  The action name of an `Action` step is a
string whose emptiness is the source's `not step.action` check. -/
inductive StepKind where
  | action : (action : String) → StepKind
  | collectInformation : (collect : String) → (utter : String) →
      (rejections : List SlotRejection) → (ask_before_filling : Bool) →
      (reset_after_flow_ends : Bool) → StepKind
  | setSlots : (slots : List (String × Val)) → StepKind
  | branch : StepKind
  | linkStep : (link : String) → StepKind
  | generateResponse : StepKind
  | endStep : StepKind
  deriving DecidableEq, Repr

/-- Modelled from the spec: a node of a flow graph, with its id, kind and
ordered outgoing links (the source's `step.next.links`). -/
structure FlowStep where
  id : String
  kind : StepKind
  next : List FlowLink
  deriving DecidableEq, Repr

/-- Modelled from the spec: an immutable flow definition. -/
structure Flow where
  id : String
  name : String
  steps : List FlowStep
  deriving DecidableEq, Repr

/-- Source `Flow.readable_name` of the external flow module: the flow's
name, falling back to its id (`self.name or self.id`). -/
def Flow.readable_name (f : Flow) : String :=
  if f.name = "" then f.id else f.name

/-- Modelled from the spec: catalog step lookup.  The terminal `END` id
resolves to the implicit end step of every flow; other ids are looked up
among the flow's steps; a `none` id resolves to no step. -/
def Flow.step_by_id (f : Flow) (step_id : Option String) : Option FlowStep :=
  match step_id with
  | Option.none => Option.none
  | some i =>
    if i = END_STEP then some { id := END_STEP, kind := .endStep, next := [] }
    else f.steps.find? fun s => s.id = i

/-- Modelled from the spec: the read-only, id-keyed flow catalog. -/
abbrev FlowsList := List Flow

/-- Source `flows.flow_by_id` of the external flow module. -/
def flow_by_id (flows : FlowsList) (id : String) : Option Flow :=
  flows.find? fun f => f.id = id

/-- Modelled from the spec: the domain boundary input, reduced to the
available action names (`domain.action_names_or_texts`). -/
structure Domain where
  action_names_or_texts : List String
  deriving DecidableEq, Repr

/-- Modelled from the spec: one frame of the executor's dialogue stack
(the external `DialogueStack` frames).  `user` frames are
`UserFlowStackFrame` instances; the three pattern constructors are the
pattern frames the executor pushes; `nonFlow` stands for any frame that is
not a `BaseFlowStackFrame` (other policies' frames). -/
inductive DSFrame where
  | user : (flow_id : String) → (step_id : String) →
      (frame_type : StackFrameType) → (context : Option Ctx) → DSFrame
  | patternCompleted : (previous_flow_name : Option String) →
      (step_id : String) → DSFrame
  | patternContinueInterrupted : (previous_flow_name : String) →
      (step_id : String) → DSFrame
  | patternCollectInformation : (collect : String) → (utter : String) →
      (rejections : List SlotRejection) → (step_id : String) → DSFrame
  | nonFlow : DSFrame
  deriving DecidableEq, Repr

/-- Whether the frame is a `BaseFlowStackFrame` (has a flow and a cursor). -/
def DSFrame.isFlowFrame : DSFrame → Bool
  | .nonFlow => false
  | _ => true

/-- Whether the frame is a `UserFlowStackFrame`. -/
def DSFrame.isUserFrame : DSFrame → Bool
  | .user _ _ _ _ => true
  | _ => false

/-- The flow id named by the frame; pattern frames name their pattern
flows. -/
def DSFrame.flowId : DSFrame → String
  | .user f _ _ _ => f
  | .patternCompleted _ _ => "pattern_completed"
  | .patternContinueInterrupted _ _ => "pattern_continue_interrupted"
  | .patternCollectInformation _ _ _ _ => "pattern_collect_information"
  | .nonFlow => ""

/-- The frame's cursor (current step id). -/
def DSFrame.stepId : DSFrame → String
  | .user _ s _ _ => s
  | .patternCompleted _ s => s
  | .patternContinueInterrupted _ s => s
  | .patternCollectInformation _ _ _ s => s
  | .nonFlow => ""

/-- In-place cursor assignment (`top.step_id = updated_id`). -/
def DSFrame.setStepId (step_id : String) : DSFrame → DSFrame
  | .user f _ ft c => .user f step_id ft c
  | .patternCompleted p _ => .patternCompleted p step_id
  | .patternContinueInterrupted p _ => .patternContinueInterrupted p step_id
  | .patternCollectInformation c u r _ => .patternCollectInformation c u r step_id
  | .nonFlow => .nonFlow

/-- The frame's evaluation context (the spec's `context` field; empty for
frames that carry none). -/
def DSFrame.context : DSFrame → Ctx
  | .user _ _ _ c => c.getD []
  | _ => []

/-- Source `frame.flow(flows)`: resolve the frame's flow in the catalog. -/
def DSFrame.flow (f : DSFrame) (flows : FlowsList) : Option Flow :=
  flow_by_id flows f.flowId

/-- Source `frame.step(flows)`: resolve the frame's current step. -/
def DSFrame.step (f : DSFrame) (flows : FlowsList) : Option FlowStep :=
  (f.flow flows).bind fun fl => fl.step_by_id (some f.stepId)

end FlowExec

namespace FlowExec

open FlowRuntime
open FlowStackSrc (StackFrameType)

/-- Modelled from the spec: the executor's dialogue stack (the external
`DialogueStack`), an ordered sequence of frames whose last element is the
top. -/
structure DialogueStack where
  frames : List DSFrame
  deriving DecidableEq, Repr

/-- Python `list.insert` positioning: negative indices count from the end
and clamp at the front, positive indices clamp at the back. -/
def pyInsertPos (n : Nat) (i : Int) : Nat :=
  if i < 0 then (max 0 ((n : Int) + i)).toNat else (min (n : Int) i).toNat

/-- Source `stack.push(frame, index)`: append when no index is given,
otherwise insert at the Python list position. -/
def DialogueStack.push (s : DialogueStack) (frame : DSFrame)
    (index : Option Int := Option.none) : DialogueStack :=
  match index with
  | Option.none => { frames := s.frames ++ [frame] }
  | some i =>
    let pos := pyInsertPos s.frames.length i
    { frames := s.frames.take pos ++ frame :: s.frames.drop pos }

/-- Source `stack.is_empty()`. -/
def DialogueStack.is_empty (s : DialogueStack) : Bool := s.frames.length = 0

/-- Source `stack.top()`: the last frame, if any. -/
def DialogueStack.top (s : DialogueStack) : Option DSFrame := s.frames.getLast?

/-- Source `stack.pop()`: the popped top together with the remaining
stack; popping an empty stack fails (Python raises `IndexError`). -/
def DialogueStack.popFrame (s : DialogueStack) : Option (DSFrame × DialogueStack) :=
  match s.top with
  | Option.none => Option.none
  | some f => some (f, { frames := s.frames.dropLast })

/-- Source `stack.current_context()`: the top frame's context, or empty
when the stack is empty. -/
def DialogueStack.current_context (s : DialogueStack) : Ctx :=
  ((s.top).map DSFrame.context).getD []

/-- Source `top_user_flow_frame` of the external stack utilities: the
topmost `UserFlowStackFrame`, scanning from the top. -/
def top_user_flow_frame (s : DialogueStack) : Option DSFrame :=
  s.frames.reverse.find? DSFrame.isUserFrame

/-- One entry of the merged predicate document: either the nested context
mapping (under the `context` key) or a slot value. -/
inductive DocValue where
  | ofContext : Ctx → DocValue
  | ofSlot : Val → DocValue
  deriving DecidableEq, Repr

/-- The merged document handed to the predicate evaluator. -/
abbrev Document := List (String × DocValue)

/-- Python `dict.update` on insertion-ordered mappings: existing keys are
overridden in place, new keys are appended in update order. -/
def dictUpdate (d upd : List (String × DocValue)) : List (String × DocValue) :=
  (d.map fun kv =>
    match upd.lookup kv.1 with
    | some v => (kv.1, v)
    | Option.none => kv)
  ++ upd.filter fun kv => (d.lookup kv.1).isNone

/-- The external collaborators of the executor: template rendering
(`jinja2.Template(text).render`), predicate construction
(`pypred.Predicate`), predicate evaluation (`Predicate.evaluate`) and the
response generator.  Rendering, construction and evaluation can all raise
in the underlying libraries, so they are fallible; a predicate object is
identified by its rendered text. -/
structure Collaborators where
  render : String → List (String × Ctx) → Except String String
  mkPredicate : String → Except String String
  evalPredicate : String → Document → Except String Bool
  generate : Tracker → String

/-- The fatal outcomes a turn can end with: the circuit breaker
(`FlowCircuitBreakerTrippedException`, carrying the stack and the step
counter), an invalid flow definition (`FlowException`), an uncaught
collaborator error, or a failed catalog lookup (a Python attribute
error on a missing flow or step). -/
inductive FlowError where
  | circuitBreakerTripped : DialogueStack → Nat → FlowError
  | flowException : String → FlowError
  | collaboratorError : String → FlowError
  | lookupError : String → FlowError
  deriving DecidableEq, Repr

/-- Source `FlowActionPrediction`: the predicted action, its confidence,
optional metadata (reduced to the generated message text) and the events
to apply. -/
structure FlowActionPrediction where
  action : Option String
  score : Rat
  metadata : Option String := Option.none
  events : List Event := []
  deriving DecidableEq, Repr

/-- Source `FlowStepResult`: continue interpreting
(`ContinueFlowWithNextStep`) or stop and surface an action
(`PauseFlowReturnPrediction`). -/
inductive FlowStepResult where
  | continueFlowWithNextStep : (events : List Event) → FlowStepResult
  | pauseFlowReturnPrediction : (prediction : FlowActionPrediction) → FlowStepResult
  deriving DecidableEq, Repr

/-- The events carried by a step result. -/
def FlowStepResult.events : FlowStepResult → List Event
  | .continueFlowWithNextStep evs => evs
  | .pauseFlowReturnPrediction p => p.events

/-- Source `MAX_NUMBER_OF_STEPS`: the circuit-breaker ceiling. -/
def MAX_NUMBER_OF_STEPS : Nat := 250

/-- Source `render_template_variables`: replace context variables in a
text; an uncaught library failure propagates. -/
def render_template_variables (env : Collaborators) (text : String)
    (context : List (String × Ctx)) : Except FlowError String :=
  match env.render text context with
  | .ok r => .ok r
  | .error e => .error (.collaboratorError e)

/-- The document `is_condition_satisfied` evaluates against: the wrapped
context, overridden by the tracker's current slot values. -/
def conditionDocument (context : Ctx) (tracker : Tracker) : Document :=
  dictUpdate [("context", DocValue.ofContext context)]
    (tracker.current_slot_values.map fun kv => (kv.1, DocValue.ofSlot kv.2))

/-- Source `is_condition_satisfied`: render the predicate text against the
wrapped context, construct the predicate, and evaluate it against the
merged document.  Only the evaluation is inside the source's `try` block:
its errors become `false`; rendering and construction errors propagate. -/
def is_condition_satisfied (env : Collaborators) (predicate : String)
    (context : Ctx) (tracker : Tracker) : Except FlowError Bool := do
  let wrapped : List (String × Ctx) := [("context", context)]
  let document : Document := conditionDocument context tracker
  let rendered ← render_template_variables env predicate wrapped
  let p ← match env.mkPredicate rendered with
    | .ok p => Except.ok p
    | .error e => Except.error (FlowError.collaboratorError e)
  match env.evalPredicate p document with
  | .ok b => .ok b
  | .error _ => .ok false

/-- Source `is_step_end_of_flow`: at the end step, or at its continuation
marker. -/
def is_step_end_of_flow (step : FlowStep) : Bool :=
  step.id = END_STEP || step.id = continue_step_for_id END_STEP

end FlowExec

namespace FlowExec

open FlowRuntime
open FlowStackSrc (StackFrameType)

/-- Whether a link is a `StaticFlowLink`. -/
def FlowLink.isStatic : FlowLink → Bool
  | .staticLink _ => true
  | _ => false

/-- The first `for` loop of `select_next_step_id`: walk the links in
declaration order; a conditional link with a non-empty condition is
evaluated, and the first one satisfied yields its target.  An evaluation
failure propagates, as in the source. -/
def evalIfLinks (env : Collaborators) (context : Ctx) (tracker : Tracker) :
    List FlowLink → Except FlowError (Option String)
  | [] => .ok Option.none
  | link :: rest =>
    match link with
    | .ifLink c t =>
      if c ≠ "" then do
        let b ← is_condition_satisfied env c context tracker
        if b then .ok (some t) else evalIfLinks env context tracker rest
      else evalIfLinks env context tracker rest
    | _ => evalIfLinks env context tracker rest

/-- The second `for` loop of `select_next_step_id`: the target of the
first else link, if any. -/
def findElseTarget : List FlowLink → Option String
  | [] => Option.none
  | FlowLink.elseLink t :: _ => some t
  | _ :: rest => findElseTarget rest

/-- The shortcut condition of `select_next_step_id`: the target of the
sole link when the step has exactly one outgoing link and it is static
(`len(next.links) == 1 and isinstance(next.links[0], StaticFlowLink)`). -/
def singleStaticTarget : List FlowLink → Option String
  | [FlowLink.staticLink t] => some t
  | _ => Option.none

/-- Source `select_next_step_id`: a single static link is returned
outright; otherwise conditional links are evaluated in declaration order,
then an else link; a step with links but no resolution, the end step, and
a step with no links all yield no next step, except that a link step
synthesizes the terminal step. -/
def select_next_step_id (env : Collaborators) (current : FlowStep)
    (condition_evaluation_context : Ctx) (tracker : Tracker) :
    Except FlowError (Option String) :=
  let links := current.next
  match singleStaticTarget links with
  | some t => .ok (some t)
  | Option.none => do
    match ← evalIfLinks env condition_evaluation_context tracker links with
    | some t => .ok (some t)
    | Option.none =>
      match findElseTarget links with
      | some t => .ok (some t)
      | Option.none =>
        if links ≠ [] then
          -- failed_to_select_branch is logged; no next step
          .ok Option.none
        else if current.id = END_STEP then
          .ok Option.none
        else
          match current.kind with
          | .linkStep _ => .ok (some END_STEP)
          | _ =>
            -- failed_to_select_next_step is logged; no next step
            .ok Option.none

/-- Source `select_next_step`: resolve the selected id in the current
flow. -/
def select_next_step (env : Collaborators) (current_step : FlowStep)
    (current_flow : Flow) (stack : DialogueStack) (tracker : Tracker) :
    Except FlowError (Option FlowStep) := do
  let next_id ← select_next_step_id env current_step stack.current_context tracker
  .ok (current_flow.step_by_id next_id)

/-- Source `advance_top_flow_on_stack`: set the top frame's cursor when
the top is a flow frame. -/
def advance_top_flow_on_stack (updated_id : String) (stack : DialogueStack) :
    DialogueStack :=
  match stack.top with
  | Option.none => stack
  | some top =>
    if top.isFlowFrame then
      { frames := stack.frames.dropLast ++ [top.setStepId updated_id] }
    else stack

/-- Source `events_from_set_slots_step`: one `SlotSet` per configured
pair. -/
def events_from_set_slots_step (slots : List (String × Val)) : List Event :=
  slots.map fun kv => .slotSet kv.1 kv.2

/-- Source `events_for_collect_step`: reset the slot if it is present,
has been set, and the step asks before filling. -/
def events_for_collect_step (collect : String) (ask_before_filling : Bool)
    (tracker : Tracker) : List Event :=
  match tracker.slots.lookup collect with
  | some slot =>
    if slot.has_been_set && ask_before_filling then
      [.slotSet collect slot.initial_value]
    else []
  | Option.none => []

/-- Source `trigger_pattern_continue_interrupted`: push a continue-interrupted
pattern frame when the ended frame was an interrupting user flow and the
nearest remaining user flow is not at its end. -/
def trigger_pattern_continue_interrupted (current_frame : DSFrame)
    (stack : DialogueStack) (flows : FlowsList) : DialogueStack :=
  let previous_user_flow_frame := top_user_flow_frame stack
  let previous_user_flow_step := previous_user_flow_frame.bind fun f => f.step flows
  let previous_user_flow := previous_user_flow_frame.bind fun f => f.flow flows
  match current_frame, previous_user_flow_step, previous_user_flow with
  | .user _ _ ft _, some s, some fl =>
    if ft = StackFrameType.interrupt && !is_step_end_of_flow s then
      stack.push (.patternContinueInterrupted fl.readable_name START_STEP)
    else stack
  | _, _, _ => stack

/-- Source `trigger_pattern_completed`: push an all-flows-completed
pattern frame when the stack is empty and the ended frame was a user
flow; the frame carries the ended flow's display name, or none if the
flow is unavailable. -/
def trigger_pattern_completed (current_frame : DSFrame)
    (stack : DialogueStack) (flows : FlowsList) : DialogueStack :=
  if !stack.is_empty || !current_frame.isUserFrame then stack
  else
    let completed_flow := current_frame.flow flows
    let completed_flow_name := completed_flow.map Flow.readable_name
    stack.push (.patternCompleted completed_flow_name START_STEP)

/-- Source `trigger_pattern_ask_collect_information`: push the
collect-information pattern frame. -/
def trigger_pattern_ask_collect_information (collect : String)
    (stack : DialogueStack) (rejections : List SlotRejection) (utter : String) :
    DialogueStack :=
  stack.push (.patternCollectInformation collect utter rejections START_STEP)

/-- The `_reset_slot` helper of `reset_scoped_slots`: a `SlotSet` to the
slot's initial value, or to none if the slot is unknown. -/
def resetSlotEvent (tracker : Tracker) (slot_name : String) : Event :=
  match tracker.slots.lookup slot_name with
  | some slot => .slotSet slot_name slot.initial_value
  | Option.none => .slotSet slot_name Val.vNone

/-- The first pass of `reset_scoped_slots` over the flow's steps: reset
events for collect steps that reset after the flow ends, and the names of
slots whose collect step opted out. -/
def collectStepResets (tracker : Tracker) :
    List FlowStep → List Event × List String
  | [] => ([], [])
  | step :: rest =>
    let acc := collectStepResets tracker rest
    match step.kind with
    | .collectInformation c _ _ _ reset_after_flow_ends =>
      if reset_after_flow_ends then (resetSlotEvent tracker c :: acc.1, acc.2)
      else (acc.1, c :: acc.2)
    | _ => acc

/-- The `resettable_set_slots` comprehension of `reset_scoped_slots`:
keys written by set-slots steps that no collect step opted out of. -/
def resettableSetSlots (not_resettable_slot_names : List String) :
    List FlowStep → List String
  | [] => []
  | step :: rest =>
    (match step.kind with
     | .setSlots slots =>
       (slots.map Prod.fst).filter fun k => k ∉ not_resettable_slot_names
     | _ => [])
    ++ resettableSetSlots not_resettable_slot_names rest

/-- Source `reset_scoped_slots`: collect-step resets first, then resets
for set-slots keys that did not opt out. -/
def reset_scoped_slots (current_flow : Flow) (tracker : Tracker) : List Event :=
  let acc := collectStepResets tracker current_flow.steps
  acc.1 ++ (resettableSetSlots acc.2 current_flow.steps).map (resetSlotEvent tracker)

end FlowExec

namespace FlowExec

open FlowRuntime
open FlowStackSrc (StackFrameType)

/-- Source `run_step`: execute one step, dispatched on its kind,
returning the step result together with the (possibly mutated) stack.
An action step without a name raises a `FlowException`; an unknown
rendered action name is skipped as a no-op continuation; a link step
pushes the linked flow's user frame below the top; the end step pops the
frame, runs the pattern triggers and computes the scoped slot resets. -/
def run_step (env : Collaborators) (step : FlowStep) (flow : Flow)
    (stack : DialogueStack) (tracker : Tracker)
    (available_actions : List String) (flows : FlowsList) :
    Except FlowError (FlowStepResult × DialogueStack) :=
  match step.kind with
  | .collectInformation collect utter rejections ask_before_filling _ =>
    let stack' := trigger_pattern_ask_collect_information collect stack rejections utter
    let events := events_for_collect_step collect ask_before_filling tracker
    .ok (.continueFlowWithNextStep events, stack')
  | .action action =>
    if action = "" then
      .error (.flowException "Action not specified for step")
    else do
      let context : List (String × Ctx) := [("context", stack.current_context)]
      let action_name ← render_template_variables env action context
      if action_name ∈ available_actions then
        .ok (.pauseFlowReturnPrediction { action := some action_name, score := 1 }, stack)
      else
        -- unknown action: logged and skipped as a no-op
        .ok (.continueFlowWithNextStep [], stack)
  | .linkStep link =>
    -- push below the current top so the current flow completes first
    let stack' := stack.push (.user link START_STEP StackFrameType.link Option.none)
      (some (-1))
    .ok (.continueFlowWithNextStep [], stack')
  | .setSlots slots =>
    .ok (.continueFlowWithNextStep (events_from_set_slots_step slots), stack)
  | .branch =>
    .ok (.continueFlowWithNextStep [], stack)
  | .generateResponse =>
    let generated := env.generate tracker
    .ok (.pauseFlowReturnPrediction
      { action := some ACTION_SEND_TEXT_NAME, score := 1, metadata := some generated },
      stack)
  | .endStep =>
    match stack.popFrame with
    | Option.none => .error (.lookupError "pop from empty stack")
    | some (current_frame, stack1) =>
      let stack2 := trigger_pattern_continue_interrupted current_frame stack1 flows
      let stack3 := trigger_pattern_completed current_frame stack2 flows
      let reset_events := reset_scoped_slots flow tracker
      .ok (.continueFlowWithNextStep reset_events, stack3)

/-- The `while` loop of `select_next_action`.  `number_of_steps_taken` is
the source's counter, incremented at the head of every iteration and
compared against the ceiling before anything else runs.  `gas` is the
structural recursion bound; `select_next_action` supplies
`MAX_NUMBER_OF_STEPS + 1`, which exceeds the number of iterations any run
can reach before the circuit breaker fires, so the `gas = 0` branch is
unreachable from it (`selectNextActionLoop_cb_counter` relies on the
accompanying invariant, not on that branch's value). -/
def selectNextActionLoop (env : Collaborators) (available_actions : List String)
    (flows : FlowsList) :
    (gas : Nat) → (number_of_steps_taken : Nat) → DialogueStack → Tracker →
    Except FlowError (DialogueStack × Tracker × FlowActionPrediction)
  | gas, n, stack, tracker =>
    let n' := n + 1
    if MAX_NUMBER_OF_STEPS < n' then
      .error (.circuitBreakerTripped stack n')
    else
      match gas with
      | 0 => .error (.circuitBreakerTripped stack n')
      | gas' + 1 =>
        match stack.top with
        | Option.none =>
          -- no current flow: all flows are done, predict action listen
          .ok (stack, tracker, { action := some ACTION_LISTEN_NAME, score := 1 })
        | some active_frame =>
          if active_frame.isFlowFrame then
            match active_frame.flow flows with
            | Option.none => .error (.lookupError "flow not in catalog")
            | some current_flow =>
              match active_frame.step flows with
              | Option.none => .error (.lookupError "step not in flow")
              | some prev_step => do
                match ← select_next_step env prev_step current_flow stack tracker with
                | Option.none =>
                  -- no next step resolved: loop again without advancing
                  selectNextActionLoop env available_actions flows gas' n' stack tracker
                | some current_step =>
                  let stack' := advance_top_flow_on_stack current_step.id stack
                  let (step_result, stack'') ←
                    run_step env current_step current_flow stack' tracker
                      available_actions flows
                  let tracker' := tracker.update_with_events step_result.events
                  match step_result with
                  | .continueFlowWithNextStep _ =>
                    selectNextActionLoop env available_actions flows gas' n' stack'' tracker'
                  | .pauseFlowReturnPrediction prediction =>
                    .ok (stack'', tracker', prediction)
          else
            .ok (stack, tracker, { action := some ACTION_LISTEN_NAME, score := 1 })

/-- Source `select_next_action`: run the interpretation loop on a working
copy of the tracker (copying is the identity in this functional model)
and attach every event gathered since the loop began to the final
prediction. -/
def select_next_action (env : Collaborators) (stack : DialogueStack)
    (tracker : Tracker) (domain : Domain) (flows : FlowsList) :
    Except FlowError FlowActionPrediction := do
  let number_of_initial_events := tracker.events.length
  let (_, tracker', prediction) ←
    selectNextActionLoop env domain.action_names_or_texts flows
      (MAX_NUMBER_OF_STEPS + 1) 0 stack tracker
  .ok { prediction with events := tracker'.events.drop number_of_initial_events }

end FlowExec

namespace FlowExec

open FlowRuntime
open FlowStackSrc (StackFrameType)

/-- A tracker with no slots and no events, used in concrete runs. -/
def emptyTracker : Tracker := { slots := [], events := [] }

/-- Collaborators whose renderer is the identity on the text, whose
predicate object is the rendered text itself, and whose evaluator
holds exactly for the predicate text `true`. -/
def idCollaborators : Collaborators where
  render := fun text _ => .ok text
  mkPredicate := fun text => .ok text
  evalPredicate := fun p _ => .ok (p == "true")
  generate := fun _ => "generated"

end FlowExec

namespace FlowStackSrc

/-- Parsing the string value of any frame type recovers that type. -/
theorem from_str_value (ft : StackFrameType) :
    StackFrameType.from_str (some ft.value) = some ft := by
  cases ft <;> rfl

/-- Serializing any frame and parsing the record back recovers the frame. -/
theorem frame_from_dict_as_dict (f : FlowStackFrame) :
    FlowStackFrame.from_dict f.as_dict = some f := by
  simp [FlowStackFrame.from_dict, FlowStackFrame.as_dict, from_str_value]

/-- C7: for every stack (every frame of the model carries one of the
recognized frame types, so the claim's hypothesis is always met),
deserializing the serialized form reproduces the stack exactly, frame by
frame, preserving order, flow id, step id, frame type and context. -/
theorem flow_stack_round_trip (S : FlowStack) :
    FlowStack.from_dict S.as_dict = some S := by
  obtain ⟨frames⟩ := S
  have hloop : ∀ (l acc : List FlowStackFrame),
      List.mapM.loop FlowStackFrame.from_dict (l.map FlowStackFrame.as_dict) acc =
        some (acc.reverse ++ l) := by
    intro l
    induction l with
    | nil => intro acc; simp [List.mapM.loop]
    | cons f rest ih =>
      intro acc
      simp [List.mapM.loop, frame_from_dict_as_dict, ih]
  simp only [FlowStack.from_dict, FlowStack.as_dict, List.mapM]
  rw [hloop frames []]
  simp

/-- C10: for every frame and step id, `with_updated_id` keeps the flow id
and the frame type, replaces the step id, and drops the context to `none`
even when the original context was a non-empty mapping. -/
theorem with_updated_id_drops_context (f : FlowStackFrame) (s : String) :
    f.with_updated_id s =
      { flow_id := f.flow_id, step_id := s, frame_type := f.frame_type,
        context := Option.none } :=
  rfl

end FlowStackSrc

namespace FlowExec

open FlowRuntime
open FlowStackSrc (StackFrameType)

/-- C9: for every step whose outgoing links consist of exactly one static
link, `select_next_step_id` returns that link's target; the result is the
same for every collaborator (no predicate evaluation) and every tracker. -/
theorem select_next_step_id_single_static (env : Collaborators)
    (current : FlowStep) (ctx : Ctx) (tracker : Tracker) (t : String)
    (h : current.next = [FlowLink.staticLink t]) :
    select_next_step_id env current ctx tracker = .ok (some t) := by
  unfold select_next_step_id
  rw [h]
  rfl

/-- A concrete step with a single static link, for the C9 witness. -/
def singleStaticStep : FlowStep :=
  { id := "s", kind := .branch, next := [FlowLink.staticLink "nxt"] }

/-- Witness for C9 at a concrete step, collaborator set and tracker. -/
theorem select_next_step_id_single_static_witness :
    select_next_step_id idCollaborators singleStaticStep [] emptyTracker =
      .ok (some "nxt") :=
  select_next_step_id_single_static idCollaborators singleStaticStep []
    emptyTracker "nxt" rfl

end FlowExec

namespace FlowExec

open FlowRuntime
open FlowStackSrc (StackFrameType)

/-- Collaborators whose template renderer always fails, as
`jinja2.Template` does on a template syntax error. -/
def failingRenderCollaborators : Collaborators where
  render := fun _ _ => .error "TemplateSyntaxError"
  mkPredicate := fun text => .ok text
  evalPredicate := fun _ _ => .ok true
  generate := fun _ => ""

/-- Collaborators whose renderer and predicate construction succeed but
whose evaluation always fails, as `Predicate.evaluate` can. -/
def evalErrorCollaborators : Collaborators where
  render := fun text _ => .ok text
  mkPredicate := fun text => .ok text
  evalPredicate := fun _ _ => .error "TypeError"
  generate := fun _ => ""

/-- Counterexample to C2: a failure while rendering the predicate text as
a template is not caught — `is_condition_satisfied` propagates it instead
of yielding `false`, because the source's `try` block only wraps the
`evaluate` call. -/
theorem is_condition_satisfied_render_error_raises :
    is_condition_satisfied failingRenderCollaborators "bad template" [] emptyTracker =
      .error (.collaboratorError "TemplateSyntaxError") := rfl

/-- C2 (amended): whenever rendering the predicate text and constructing
the predicate succeed, `is_condition_satisfied` never fails: the
evaluation against the merged document is the sole guarded call, and an
evaluation error yields `false`. -/
theorem is_condition_satisfied_catches_eval_errors (env : Collaborators)
    (predicate : String) (context : Ctx) (tracker : Tracker) (r p : String)
    (hr : env.render predicate [("context", context)] = .ok r)
    (hp : env.mkPredicate r = .ok p) :
    is_condition_satisfied env predicate context tracker =
      .ok (match env.evalPredicate p (conditionDocument context tracker) with
           | .ok b => b
           | .error _ => false) := by
  simp only [is_condition_satisfied, render_template_variables, Bind.bind,
    Except.bind, hr, hp]
  cases h : env.evalPredicate p (conditionDocument context tracker) <;> simp [h]

/-- Witness for the amended C2: with succeeding rendering and
construction but failing evaluation, the result is `false`. -/
theorem is_condition_satisfied_catches_eval_errors_witness :
    is_condition_satisfied evalErrorCollaborators "x > 0" [] emptyTracker =
      .ok false :=
  is_condition_satisfied_catches_eval_errors evalErrorCollaborators "x > 0" []
    emptyTracker "x > 0" "x > 0" rfl rfl

end FlowExec

namespace FlowExec

open FlowRuntime
open FlowStackSrc (StackFrameType)

/-- Whether a link is an `ElseFlowLink`. -/
def FlowLink.isElse : FlowLink → Bool
  | .elseLink _ => true
  | _ => false

/-- A link the conditional scan of `select_next_step_id` passes over:
either it is not a conditional link with a non-empty condition, or its
condition evaluates to `false`. -/
def linkNotTaken (env : Collaborators) (ctx : Ctx) (tracker : Tracker) :
    FlowLink → Prop
  | .ifLink c _ => c ≠ "" → is_condition_satisfied env c ctx tracker = .ok false
  | _ => True

/-- A list of links containing a non-static link never satisfies the
single-static shortcut. -/
lemma singleStaticTarget_eq_none (links : List FlowLink) (l : FlowLink)
    (hmem : l ∈ links) (hl : l.isStatic = false) :
    singleStaticTarget links = Option.none := by
  cases links with
  | nil => cases hmem
  | cons a rest =>
    cases rest with
    | nil =>
      have ha : l = a := by simpa using hmem
      subst ha
      cases l with
      | staticLink t => simp [FlowLink.isStatic] at hl
      | ifLink c t => rfl
      | elseLink t => rfl
    | cons b rest2 => cases a <;> rfl

/-- The conditional scan skips a link it does not take. -/
lemma evalIfLinks_skip (env : Collaborators) (ctx : Ctx) (tracker : Tracker)
    (l : FlowLink) (rest : List FlowLink)
    (hl : linkNotTaken env ctx tracker l) :
    evalIfLinks env ctx tracker (l :: rest) = evalIfLinks env ctx tracker rest := by
  cases l with
  | staticLink t => rfl
  | elseLink t => rfl
  | ifLink c t =>
    by_cases hc : c = ""
    · simp [evalIfLinks, hc]
    · have hfalse := hl hc
      simp [evalIfLinks, hc, hfalse, Bind.bind, Except.bind]

/-- A scan over links none of which is taken yields no target. -/
lemma evalIfLinks_none (env : Collaborators) (ctx : Ctx) (tracker : Tracker)
    (links : List FlowLink)
    (h : ∀ l ∈ links, linkNotTaken env ctx tracker l) :
    evalIfLinks env ctx tracker links = .ok Option.none := by
  induction links with
  | nil => rfl
  | cons l rest ih =>
    rw [evalIfLinks_skip env ctx tracker l rest (h l (by simp))]
    exact ih fun x hx => h x (by simp [hx])

/-- The conditional scan returns the target of the first satisfied
conditional link, regardless of anything after it. -/
lemma evalIfLinks_first_true (env : Collaborators) (ctx : Ctx) (tracker : Tracker)
    (pre post : List FlowLink) (c t : String)
    (hpre : ∀ l ∈ pre, linkNotTaken env ctx tracker l)
    (hc : c ≠ "") (htrue : is_condition_satisfied env c ctx tracker = .ok true) :
    evalIfLinks env ctx tracker (pre ++ FlowLink.ifLink c t :: post) =
      .ok (some t) := by
  induction pre with
  | nil =>
    simp only [List.nil_append]
    simp [evalIfLinks, hc, htrue, Bind.bind, Except.bind]
  | cons l rest ih =>
    rw [List.cons_append, evalIfLinks_skip env ctx tracker l _ (hpre l (by simp))]
    exact ih fun x hx => hpre x (by simp [hx])

/-- The else scan returns the first else link's target. -/
lemma findElseTarget_first (pre post : List FlowLink) (t : String)
    (hpre : ∀ l ∈ pre, l.isElse = false) :
    findElseTarget (pre ++ FlowLink.elseLink t :: post) = some t := by
  induction pre with
  | nil => rfl
  | cons l rest ih =>
    have hl := hpre l (by simp)
    have ihr := ih fun x hx => hpre x (by simp [hx])
    cases l with
    | elseLink s => simp [FlowLink.isElse] at hl
    | staticLink s => exact ihr
    | ifLink c s => exact ihr

/-- C3: conditional links are evaluated in declaration order and the
first satisfied one wins, so later true conditionals are never chosen;
an else link's target is returned only when no conditional link matched. -/
theorem select_next_step_id_first_match :
    (∀ (env : Collaborators) (current : FlowStep) (ctx : Ctx) (tracker : Tracker)
       (pre post : List FlowLink) (c t : String),
       current.next = pre ++ FlowLink.ifLink c t :: post →
       c ≠ "" →
       is_condition_satisfied env c ctx tracker = .ok true →
       (∀ l ∈ pre, linkNotTaken env ctx tracker l) →
       select_next_step_id env current ctx tracker = .ok (some t)) ∧
    (∀ (env : Collaborators) (current : FlowStep) (ctx : Ctx) (tracker : Tracker)
       (pre post : List FlowLink) (t : String),
       current.next = pre ++ FlowLink.elseLink t :: post →
       (∀ l ∈ current.next, linkNotTaken env ctx tracker l) →
       (∀ l ∈ pre, l.isElse = false) →
       select_next_step_id env current ctx tracker = .ok (some t)) := by
  constructor
  · intro env current ctx tracker pre post c t hnext hc htrue hpre
    unfold select_next_step_id
    rw [hnext]
    have h1 := singleStaticTarget_eq_none (pre ++ FlowLink.ifLink c t :: post)
      (FlowLink.ifLink c t) (by simp) rfl
    have h2 := evalIfLinks_first_true env ctx tracker pre post c t hpre hc htrue
    simp [h1, h2, Bind.bind, Except.bind]
  · intro env current ctx tracker pre post t hnext hall hpre
    rw [hnext] at hall
    unfold select_next_step_id
    rw [hnext]
    have h1 := singleStaticTarget_eq_none (pre ++ FlowLink.elseLink t :: post)
      (FlowLink.elseLink t) (by simp) rfl
    have h2 := evalIfLinks_none env ctx tracker _ hall
    have h3 := findElseTarget_first pre post t hpre
    simp [h1, h2, h3, Bind.bind, Except.bind]

/-- A step whose three conditional links evaluate false, true, true in
declaration order, for the C3 witness. -/
def firstMatchStep : FlowStep :=
  { id := "s", kind := .branch,
    next := [FlowLink.ifLink "c1" "t1", FlowLink.ifLink "true" "t2",
             FlowLink.ifLink "true" "t3"] }

/-- Witness for C3: with links L1 (false), L2 (true), L3 (true), the
selector returns L2's target, never L3's. -/
theorem select_next_step_id_first_match_witness :
    select_next_step_id idCollaborators firstMatchStep [] emptyTracker =
      .ok (some "t2") :=
  select_next_step_id_first_match.1 idCollaborators firstMatchStep [] emptyTracker
    [FlowLink.ifLink "c1" "t1"] [FlowLink.ifLink "true" "t3"] "true" "t2" rfl
    (by decide) rfl
    (by
      intro l hl
      simp only [List.mem_singleton] at hl
      subst hl
      exact fun _ => rfl)

end FlowExec

namespace FlowExec

open FlowRuntime
open FlowStackSrc (StackFrameType)

/-- C4: on a non-empty stack, a `Link` step pushes a user-flow frame for
the linked flow with frame type `link` directly below the current top, so
the current flow's frame stays on top, and the step returns `Continue`. -/
theorem run_step_link_below_top (env : Collaborators) (flow : Flow)
    (tracker : Tracker) (avail : List String) (flows : FlowsList)
    (stack : DialogueStack) (r : List DSFrame) (f : DSFrame)
    (target id : String) (nx : List FlowLink)
    (h : stack.frames = r ++ [f]) :
    run_step env ⟨id, .linkStep target, nx⟩ flow stack tracker avail flows =
      .ok (.continueFlowWithNextStep [],
        ⟨r ++ [DSFrame.user target START_STEP StackFrameType.link Option.none,
               f]⟩) := by
  obtain ⟨frames⟩ := stack
  simp only at h
  subst h
  have hpos : pyInsertPos (r ++ [f]).length (-1) = r.length := by
    simp [pyInsertPos, List.length_append]
  simp only [run_step, DialogueStack.push, hpos]
  rw [List.take_left, List.drop_left]

/-- The empty dialogue stack. -/
def emptyStack : DialogueStack := ⟨[]⟩

/-- A one-frame stack holding a regular user flow frame, for witnesses. -/
def oneFrameStack : DialogueStack :=
  ⟨[DSFrame.user "flowA" "s1" StackFrameType.regular Option.none]⟩

/-- A flow with no steps, used where a run does not consult the flow. -/
def trivialFlow : Flow := { id := "f", name := "", steps := [] }

/-- Witness for C4: linking from flow A's frame to flow B leaves A's
frame on top of B's freshly pushed frame. -/
theorem run_step_link_below_top_witness :
    run_step idCollaborators ⟨"s2", .linkStep "flowB", []⟩ trivialFlow
      oneFrameStack emptyTracker [] [] =
      .ok (.continueFlowWithNextStep [],
        ⟨[DSFrame.user "flowB" START_STEP StackFrameType.link Option.none,
          DSFrame.user "flowA" "s1" StackFrameType.regular Option.none]⟩) :=
  run_step_link_below_top idCollaborators trivialFlow emptyTracker [] []
    oneFrameStack [] (DSFrame.user "flowA" "s1" StackFrameType.regular Option.none)
    "flowB" "s2" [] rfl

/-- C8: an `Action` step fails with a `FlowException` exactly when it has
no action name; with an action name, a rendered name outside the
available actions is skipped as a no-op `Continue`, and an available
rendered name pauses with that action at confidence 1. -/
theorem run_step_action_spec (env : Collaborators) (flow : Flow)
    (stack : DialogueStack) (tracker : Tracker) (avail : List String)
    (flows : FlowsList) (id a : String) (nx : List FlowLink) :
    ((∃ msg, run_step env ⟨id, .action a, nx⟩ flow stack tracker avail flows =
        .error (.flowException msg)) ↔ a = "") ∧
    ∀ rendered, a ≠ "" →
      env.render a [("context", stack.current_context)] = .ok rendered →
      (rendered ∉ avail →
        run_step env ⟨id, .action a, nx⟩ flow stack tracker avail flows =
          .ok (.continueFlowWithNextStep [], stack)) ∧
      (rendered ∈ avail →
        run_step env ⟨id, .action a, nx⟩ flow stack tracker avail flows =
          .ok (.pauseFlowReturnPrediction { action := some rendered, score := 1 },
            stack)) := by
  constructor
  · constructor
    · rintro ⟨msg, hmsg⟩
      by_contra hne
      cases hr : env.render a [("context", stack.current_context)] with
      | error e =>
        simp [run_step, if_neg hne, render_template_variables, hr,
          Bind.bind, Except.bind] at hmsg
      | ok rendered =>
        by_cases hmem : rendered ∈ avail <;>
          simp [run_step, if_neg hne, render_template_variables, hr, hmem,
            Bind.bind, Except.bind] at hmsg
    · intro ha
      subst ha
      exact ⟨"Action not specified for step", rfl⟩
  · intro rendered hne hr
    constructor <;> intro hmem <;>
      simp [run_step, if_neg hne, render_template_variables, hr, hmem,
        Bind.bind, Except.bind]

/-- Witness for C8: a rendered action name present in the available
actions pauses with that action at confidence 1. -/
theorem run_step_action_spec_witness :
    run_step idCollaborators ⟨"s", .action "act", []⟩ trivialFlow emptyStack
      emptyTracker ["act"] [] =
      .ok (.pauseFlowReturnPrediction { action := some "act", score := 1 },
        emptyStack) :=
  ((run_step_action_spec idCollaborators trivialFlow emptyStack emptyTracker
      ["act"] [] "s" "act" []).2 "act" (by decide) rfl).2 (by simp)

end FlowExec

namespace FlowExec

open FlowRuntime
open FlowStackSrc (StackFrameType)

/-- C5: `trigger_pattern_completed` (invoked by `run_step` on the
already-popped ending frame) pushes an all-flows-completed pattern frame
carrying the ended flow's display name (or none if unavailable) exactly
when the remaining stack is empty and the ended frame was a user flow;
and running an `End` step whose pop empties the stack leaves exactly that
pattern frame. -/
theorem end_step_completed_pattern :
    (∀ (frame : DSFrame) (stack : DialogueStack) (flows : FlowsList),
       trigger_pattern_completed frame stack flows =
         if stack.is_empty && frame.isUserFrame then
           stack.push
             (.patternCompleted ((frame.flow flows).map Flow.readable_name)
               START_STEP)
         else stack) ∧
    (∀ (env : Collaborators) (flow : Flow) (tracker : Tracker)
       (avail : List String) (flows : FlowsList) (f : DSFrame)
       (id : String) (nx : List FlowLink),
       f.isUserFrame = true →
       run_step env ⟨id, .endStep, nx⟩ flow ⟨[f]⟩ tracker avail flows =
         .ok (.continueFlowWithNextStep (reset_scoped_slots flow tracker),
           ⟨[DSFrame.patternCompleted ((f.flow flows).map Flow.readable_name)
             START_STEP]⟩)) := by
  constructor
  · intro frame stack flows
    cases hs : stack.is_empty <;> cases hu : frame.isUserFrame <;>
      simp [trigger_pattern_completed, hs, hu]
  · intro env flow tracker avail flows f id nx hf
    cases f with
    | user fid sid ft ctx =>
      simp [run_step, DialogueStack.popFrame, DialogueStack.top,
        trigger_pattern_continue_interrupted, top_user_flow_frame,
        trigger_pattern_completed, DialogueStack.is_empty,
        DSFrame.isUserFrame, DialogueStack.push]
    | patternCompleted p s => simp [DSFrame.isUserFrame] at hf
    | patternContinueInterrupted p s => simp [DSFrame.isUserFrame] at hf
    | patternCollectInformation c u r s => simp [DSFrame.isUserFrame] at hf
    | nonFlow => simp [DSFrame.isUserFrame] at hf

/-- A user frame of flow A, for the C5 witness. -/
def endedUserFrame : DSFrame :=
  DSFrame.user "flowA" "END" StackFrameType.regular Option.none

/-- The catalog holding only flow A, whose display name falls back to its
id. -/
def flowACatalog : FlowsList := [{ id := "flowA", name := "Flow A", steps := [] }]

/-- Witness for C5: ending the last user flow frame empties the stack and
leaves exactly the completed pattern frame carrying the flow's name. -/
theorem end_step_completed_pattern_witness :
    run_step idCollaborators ⟨"e", .endStep, []⟩ trivialFlow ⟨[endedUserFrame]⟩
      emptyTracker [] flowACatalog =
      .ok (.continueFlowWithNextStep (reset_scoped_slots trivialFlow emptyTracker),
        ⟨[DSFrame.patternCompleted
            ((endedUserFrame.flow flowACatalog).map Flow.readable_name)
            START_STEP]⟩) :=
  end_step_completed_pattern.2 idCollaborators trivialFlow emptyTracker []
    flowACatalog endedUserFrame "e" [] rfl

end FlowExec

namespace FlowExec

open FlowRuntime
open FlowStackSrc (StackFrameType)

/-- A tracker holding slot `x` with a set value, for the C6 statements. -/
def resetTracker : Tracker :=
  { slots := [("x", { value := .vInt 1, initial_value := .vNone,
                      has_been_set := true })],
    events := [] }

/-- A flow with a resetting collect step for `x`, an opting-out collect
step for `x`, and a set-slots step writing `x`. -/
def collectResetBadFlow : Flow :=
  { id := "badflow", name := "",
    steps := [⟨"c1", .collectInformation "x" "utter_x" [] true true, []⟩,
              ⟨"c2", .collectInformation "x" "utter_x" [] true false, []⟩,
              ⟨"s1", .setSlots [("x", .vInt 5)], []⟩] }

/-- Counterexample to C6: this flow contains a collect step for `x` with
reset-after-flow-ends false and a set-slots step writing `x`, yet
`reset_scoped_slots` does emit a reset event for `x`, because another
collect step for the same slot resets it. -/
theorem reset_scoped_slots_cex :
    (∃ step ∈ collectResetBadFlow.steps,
       step.kind = .collectInformation "x" "utter_x" [] true false) ∧
    (∃ step ∈ collectResetBadFlow.steps,
       step.kind = .setSlots [("x", Val.vInt 5)]) ∧
    reset_scoped_slots collectResetBadFlow resetTracker =
      [Event.slotSet "x" Val.vNone] := by
  refine ⟨⟨⟨"c2", .collectInformation "x" "utter_x" [] true false, []⟩,
      by simp [collectResetBadFlow], rfl⟩,
    ⟨⟨"s1", .setSlots [("x", Val.vInt 5)], []⟩,
      by simp [collectResetBadFlow], rfl⟩, rfl⟩

/-- The reset event for a slot name carries exactly that name as key. -/
lemma resetSlotEvent_key (tracker : Tracker) (c x : String) (v : Val)
    (h : resetSlotEvent tracker c = Event.slotSet x v) : c = x := by
  unfold resetSlotEvent at h
  cases hc : tracker.slots.lookup c <;> rw [hc] at h <;>
    exact (Event.slotSet.injEq _ _ _ _).mp h |>.1

/-- A collect step for `x` that opts out puts `x` among the
not-resettable names. -/
lemma collectStepResets_mem_snd (tracker : Tracker) (steps : List FlowStep)
    (x : String)
    (hex : ∃ step ∈ steps, ∃ u rej ask,
      step.kind = .collectInformation x u rej ask false) :
    x ∈ (collectStepResets tracker steps).2 := by
  induction steps with
  | nil => obtain ⟨step, hmem, _⟩ := hex; cases hmem
  | cons s rest ih =>
    obtain ⟨step, hmem, u, rej, ask, hkind⟩ := hex
    rcases List.mem_cons.mp hmem with rfl | hmem'
    · rw [collectStepResets, hkind]
      simp
    · have hx := ih ⟨step, hmem', u, rej, ask, hkind⟩
      rw [collectStepResets]
      rcases hk : s.kind with _ | ⟨c, _, _, _, b⟩ | _ | _ | _ | _ | _ <;>
        simp only [] <;> try exact hx
      cases b <;> simp [hx]

/-- When every collect step for `x` opts out, the collect pass emits no
reset event for `x`. -/
lemma collectStepResets_fst_no_x (tracker : Tracker) (steps : List FlowStep)
    (x : String)
    (hall : ∀ step ∈ steps, ∀ u rej ask b,
      step.kind = .collectInformation x u rej ask b → b = false) :
    ∀ v, Event.slotSet x v ∉ (collectStepResets tracker steps).1 := by
  induction steps with
  | nil => intro v h; cases h
  | cons s rest ih =>
    intro v h
    have ihr := ih (fun st hm u rej ask b hk => hall st (by simp [hm]) u rej ask b hk) v
    rw [collectStepResets] at h
    rcases hk : s.kind with _ | ⟨c, u, rej, ask, b⟩ | _ | _ | _ | _ | _ <;>
      rw [hk] at h <;> try exact ihr h
    cases b with
    | false => exact ihr h
    | true =>
      have h' : Event.slotSet x v ∈
          resetSlotEvent tracker c :: (collectStepResets tracker rest).1 := h
      rcases List.mem_cons.mp h' with h1 | h1
      · have hcx := resetSlotEvent_key tracker c x v h1.symm
        subst hcx
        have := hall s (by simp) u rej ask true hk
        simp at this
      · exact ihr h1

/-- A name among the not-resettable ones never survives the set-slots
filter. -/
lemma resettableSetSlots_not_mem (nr : List String) (steps : List FlowStep)
    (x : String) (hx : x ∈ nr) : x ∉ resettableSetSlots nr steps := by
  induction steps with
  | nil => intro h; cases h
  | cons s rest ih =>
    intro h
    rw [resettableSetSlots] at h
    rcases List.mem_append.mp h with h' | h'
    · rcases hk : s.kind with _ | _ | ⟨slots⟩ | _ | _ | _ | _ <;> rw [hk] at h' <;>
        try cases h'
      have := (List.mem_filter.mp h').2
      simp [hx] at this
    · exact ih h'

/-- C6 (amended): when at least one collect step for slot `x` opts out of
end-of-flow reset and no collect step for `x` resets it (in particular
when the claim's collect step is the only one for `x`), `reset_scoped_slots`
emits no reset event for `x`, even though a set-slots step writes `x`:
the opt-out takes precedence over the default reset. -/
theorem reset_scoped_slots_opt_out (flow : Flow) (tracker : Tracker) (x : String)
    (hex : ∃ step ∈ flow.steps, ∃ u rej ask,
      step.kind = .collectInformation x u rej ask false)
    (hall : ∀ step ∈ flow.steps, ∀ u rej ask b,
      step.kind = .collectInformation x u rej ask b → b = false) :
    ∀ v, Event.slotSet x v ∉ reset_scoped_slots flow tracker := by
  intro v h
  unfold reset_scoped_slots at h
  rcases List.mem_append.mp h with h' | h'
  · exact collectStepResets_fst_no_x tracker flow.steps x hall v h'
  · obtain ⟨name, hname, heq⟩ := List.mem_map.mp h'
    have hnx := resetSlotEvent_key tracker name x v heq
    subst hnx
    exact resettableSetSlots_not_mem _ flow.steps name
      (collectStepResets_mem_snd tracker flow.steps name hex) hname

/-- The flow of the amended C6: a single opting-out collect step for `x`
and a set-slots step writing `x`. -/
def collectOptOutFlow : Flow :=
  { id := "goodflow", name := "",
    steps := [⟨"c1", .collectInformation "x" "utter_x" [] true false, []⟩,
              ⟨"s1", .setSlots [("x", .vInt 5)], []⟩] }

/-- Witness for the amended C6: no reset event for `x` is emitted at the
end of the opting-out flow. -/
theorem reset_scoped_slots_opt_out_witness :
    Event.slotSet "x" Val.vNone ∉ reset_scoped_slots collectOptOutFlow resetTracker :=
  reset_scoped_slots_opt_out collectOptOutFlow resetTracker "x"
    ⟨⟨"c1", .collectInformation "x" "utter_x" [] true false, []⟩,
      by simp [collectOptOutFlow], "utter_x", [], true, rfl⟩
    (by
      intro step hmem u rej ask b hk
      simp only [collectOptOutFlow, List.mem_cons, List.mem_singleton] at hmem
      rcases hmem with rfl | rfl | h
      · cases hk; rfl
      · cases hk
      · cases h)
    Val.vNone

end FlowExec

namespace FlowExec

open FlowRuntime
open FlowStackSrc (StackFrameType)

/-- Predicate evaluation never produces a circuit-breaker failure: its
uncaught errors are collaborator errors. -/
lemma is_condition_satisfied_no_cb (env : Collaborators) (p : String)
    (ctx : Ctx) (tr : Tracker) (stack : DialogueStack) (m : Nat) :
    is_condition_satisfied env p ctx tr ≠
      .error (.circuitBreakerTripped stack m) := by
  simp only [is_condition_satisfied, render_template_variables]
  cases hr : env.render p [("context", ctx)] with
  | error e => simp [Bind.bind, Except.bind]
  | ok r =>
    cases hp : env.mkPredicate r with
    | error e => simp [hp, Bind.bind, Except.bind]
    | ok pr =>
      cases he : env.evalPredicate pr (conditionDocument ctx tr) with
      | ok b => simp [hp, he, Bind.bind, Except.bind]
      | error e => simp [hp, he, Bind.bind, Except.bind]

/-- The conditional link scan never produces a circuit-breaker failure. -/
lemma evalIfLinks_no_cb (env : Collaborators) (ctx : Ctx) (tr : Tracker)
    (links : List FlowLink) (stack : DialogueStack) (m : Nat) :
    evalIfLinks env ctx tr links ≠ .error (.circuitBreakerTripped stack m) := by
  induction links with
  | nil => simp [evalIfLinks]
  | cons l rest ih =>
    cases l with
    | staticLink t => simpa [evalIfLinks] using ih
    | elseLink t => simpa [evalIfLinks] using ih
    | ifLink c t =>
      by_cases hc : c = ""
      · simpa [evalIfLinks, hc] using ih
      · have hstep : evalIfLinks env ctx tr (FlowLink.ifLink c t :: rest) =
            (is_condition_satisfied env c ctx tr).bind
              (fun b => if b then .ok (some t) else evalIfLinks env ctx tr rest) := by
          simp [evalIfLinks, hc, Bind.bind]
        rw [hstep]
        cases hcond : is_condition_satisfied env c ctx tr with
        | error e =>
          simp only [Except.bind]
          intro h
          injection h with h'
          rw [h'] at hcond
          exact is_condition_satisfied_no_cb env c ctx tr stack m hcond
        | ok b =>
          cases b with
          | false => simpa [Except.bind] using ih
          | true => simp [Except.bind]

/-- The transition selector never produces a circuit-breaker failure. -/
lemma select_next_step_id_no_cb (env : Collaborators) (cur : FlowStep)
    (ctx : Ctx) (tr : Tracker) (stack : DialogueStack) (m : Nat) :
    select_next_step_id env cur ctx tr ≠
      .error (.circuitBreakerTripped stack m) := by
  simp only [select_next_step_id]
  cases singleStaticTarget cur.next with
  | some t => simp
  | none =>
    cases hif : evalIfLinks env ctx tr cur.next with
    | error e =>
      simp only [Bind.bind, Except.bind]
      intro h
      injection h with h'
      rw [h'] at hif
      exact evalIfLinks_no_cb env ctx tr cur.next stack m hif
    | ok r =>
      simp only [Bind.bind, Except.bind]
      cases r with
      | some t => simp
      | none =>
        cases findElseTarget cur.next with
        | some t => simp
        | none =>
          cases cur.kind <;> (repeat' split) <;> simp

/-- Resolving the selected step never produces a circuit-breaker
failure. -/
lemma select_next_step_no_cb (env : Collaborators) (cur : FlowStep)
    (cflow : Flow) (stack : DialogueStack) (tr : Tracker)
    (s : DialogueStack) (m : Nat) :
    select_next_step env cur cflow stack tr ≠
      .error (.circuitBreakerTripped s m) := by
  simp only [select_next_step]
  cases hsel : select_next_step_id env cur stack.current_context tr with
  | error e =>
    simp only [Bind.bind, Except.bind]
    intro h
    injection h with h'
    rw [h'] at hsel
    exact select_next_step_id_no_cb env cur stack.current_context tr s m hsel
  | ok r => simp [Bind.bind, Except.bind]

/-- The step interpreter never produces a circuit-breaker failure: its
only fatal outcomes are flow exceptions, collaborator errors and lookup
failures. -/
lemma run_step_no_cb (env : Collaborators) (step : FlowStep) (flow : Flow)
    (stack : DialogueStack) (tr : Tracker) (avail : List String)
    (flows : FlowsList) (s : DialogueStack) (m : Nat) :
    run_step env step flow stack tr avail flows ≠
      .error (.circuitBreakerTripped s m) := by
  unfold run_step
  cases hk : step.kind with
  | collectInformation c u rej ask reset => simp
  | action a =>
    by_cases ha : a = ""
    · simp [ha]
    · simp only [if_neg ha, render_template_variables]
      cases hr : env.render a [("context", stack.current_context)] with
      | error e => simp [Bind.bind, Except.bind]
      | ok rendered =>
        by_cases hmem : rendered ∈ avail <;> simp [Bind.bind, Except.bind, hmem]
  | linkStep l => simp
  | setSlots slots => simp
  | branch => simp
  | generateResponse => simp
  | endStep =>
    cases hpop : stack.popFrame with
    | none => simp [hpop]
    | some pr => simp [hpop]

end FlowExec

namespace FlowExec

open FlowRuntime
open FlowStackSrc (StackFrameType)

/-- Whenever the interpretation loop ends in a circuit-breaker failure,
the counter it carries is exactly `MAX_NUMBER_OF_STEPS + 1`: the counter
is incremented once per iteration and checked before anything else, so
the loop can neither trip at a smaller counter nor skip past the
ceiling.  The two numeric hypotheses are the invariants the entry point
establishes: the remaining gas plus the steps already taken covers the
ceiling, and the counter has not yet exceeded it. -/
lemma selectNextActionLoop_cb_counter (env : Collaborators)
    (avail : List String) (flows : FlowsList) :
    ∀ (gas n : Nat) (stack : DialogueStack) (tracker : Tracker)
      (s : DialogueStack) (m : Nat),
      gas + n = MAX_NUMBER_OF_STEPS + 1 →
      n ≤ MAX_NUMBER_OF_STEPS →
      selectNextActionLoop env avail flows gas n stack tracker =
        .error (.circuitBreakerTripped s m) →
      m = MAX_NUMBER_OF_STEPS + 1 := by
  intro gas
  induction gas with
  | zero =>
    intro n stack tracker s m hsum hle h
    omega
  | succ g ih =>
    intro n stack tracker s m hsum hle h
    rw [selectNextActionLoop] at h
    by_cases htrip : MAX_NUMBER_OF_STEPS < n + 1
    · rw [if_pos htrip] at h
      injection h with h'
      injection h' with h1 h2
      omega
    · rw [if_neg htrip] at h
      cases htop : stack.top with
      | none => simp [htop] at h
      | some frame =>
        rw [htop] at h
        simp only [] at h
        by_cases hff : frame.isFlowFrame
        · rw [if_pos hff] at h
          cases hflow : frame.flow flows with
          | none => simp [hflow] at h
          | some cflow =>
            rw [hflow] at h
            cases hstep : frame.step flows with
            | none => simp [hstep] at h
            | some pstep =>
              rw [hstep] at h
              cases hsel : select_next_step env pstep cflow stack tracker with
              | error e =>
                simp only [hsel, Bind.bind, Except.bind] at h
                injection h with h'
                rw [h'] at hsel
                exact absurd hsel
                  (select_next_step_no_cb env pstep cflow stack tracker s m)
              | ok r =>
                simp only [hsel, Bind.bind, Except.bind] at h
                cases r with
                | none => exact ih (n + 1) stack tracker s m (by omega) (by omega) h
                | some cstep =>
                  cases hrun : run_step env cstep cflow
                      (advance_top_flow_on_stack cstep.id stack) tracker
                      avail flows with
                  | error e =>
                    simp only [hrun, Except.bind] at h
                    injection h with h'
                    rw [h'] at hrun
                    exact absurd hrun
                      (run_step_no_cb env cstep cflow
                        (advance_top_flow_on_stack cstep.id stack) tracker
                        avail flows s m)
                  | ok pr =>
                    obtain ⟨sr, st2⟩ := pr
                    simp only [hrun, Except.bind] at h
                    cases sr with
                    | continueFlowWithNextStep evs =>
                      exact ih (n + 1) st2 _ s m (by omega) (by omega) h
                    | pauseFlowReturnPrediction pred => simp at h
        · rw [if_neg hff] at h
          simp at h

end FlowExec

namespace FlowExec

open FlowRuntime
open FlowStackSrc (StackFrameType)

/-- A flow whose only step routes back to itself: step `a` has a single
static link targeting `a`. -/
def selfLoopFlow : Flow :=
  { id := "loop", name := "",
    steps := [⟨"a", .branch, [FlowLink.staticLink "a"]⟩] }

/-- The catalog holding only the self-looping flow. -/
def selfLoopFlows : FlowsList := [selfLoopFlow]

/-- A stack whose top frame sits at the self-looping step. -/
def selfLoopStack : DialogueStack :=
  ⟨[DSFrame.user "loop" "a" StackFrameType.regular Option.none]⟩

/-- A domain with no available actions. -/
def emptyDomain : Domain := { action_names_or_texts := [] }

set_option maxRecDepth 10000 in
/-- C1: the interpretation loop counts iterations from 0 and aborts with
a circuit-breaker failure carrying the stack and the counter exactly when
the counter exceeds the ceiling of 250 and never before: every
circuit-breaker failure `select_next_action` can produce carries counter
251, and the self-looping flow (whose only link targets its own step)
trips the breaker at exactly that counter instead of looping forever. -/
theorem select_next_action_circuit_breaker :
    (∀ (env : Collaborators) (stack : DialogueStack) (tracker : Tracker)
       (domain : Domain) (flows : FlowsList) (s : DialogueStack) (n : Nat),
       select_next_action env stack tracker domain flows =
         .error (.circuitBreakerTripped s n) →
       n = MAX_NUMBER_OF_STEPS + 1 ∧ MAX_NUMBER_OF_STEPS < n) ∧
    select_next_action idCollaborators selfLoopStack emptyTracker emptyDomain
      selfLoopFlows =
      .error (.circuitBreakerTripped selfLoopStack (MAX_NUMBER_OF_STEPS + 1)) := by
  constructor
  · intro env stack tracker domain flows s n h
    simp only [select_next_action] at h
    cases hloop : selectNextActionLoop env domain.action_names_or_texts flows
        (MAX_NUMBER_OF_STEPS + 1) 0 stack tracker with
    | error e =>
      simp only [hloop, Bind.bind, Except.bind] at h
      injection h with h'
      rw [h'] at hloop
      have := selectNextActionLoop_cb_counter env domain.action_names_or_texts
        flows (MAX_NUMBER_OF_STEPS + 1) 0 stack tracker s n (by omega) (by omega)
        hloop
      omega
    | ok r =>
      obtain ⟨st, tr, pred⟩ := r
      simp [hloop, Bind.bind, Except.bind] at h
  · rfl

/-- Witness for C1: instantiating the universal part at the self-looping
run shows the carried counter is 251, one past the ceiling. -/
theorem select_next_action_circuit_breaker_witness :
    MAX_NUMBER_OF_STEPS + 1 = MAX_NUMBER_OF_STEPS + 1 ∧
      MAX_NUMBER_OF_STEPS < MAX_NUMBER_OF_STEPS + 1 :=
  select_next_action_circuit_breaker.1 idCollaborators selfLoopStack
    emptyTracker emptyDomain selfLoopFlows selfLoopStack
    (MAX_NUMBER_OF_STEPS + 1) select_next_action_circuit_breaker.2

end FlowExec
